import Mathlib

/-!
Verification of darwin-rs (rphmeier/darwin-rs): shallow embedding of
`src/simulation_builder.rs` and of the TSP example
`examples/tsp/src/main.rs`, with theorems settling the specification
claims about them.

Modelling conventions:
* Rust `f64` values that are only stored and compared for identity
  (stopping-criterion payloads, sentinel fields, timing) are modelled as
  rationals `ℚ`; the exact value of `f64::MAX` is the rational
  `2 ^ 1024 - 2 ^ 971`.
* The TSP example's city coordinates are decimal literals, modelled
  exactly as rationals `ℚ`; the distances and fitness values computed
  from them (which involve square roots) are modelled as real numbers
  `ℝ`.
* Rust `u32` / `usize` are modelled as `Nat`; none of the embedded code
  performs arithmetic on them, so no wrap-around modulus is needed.
* A Rust method taking `self` by value or `&mut self` becomes a function
  from the state to the new state; `&self` methods become pure functions.
* A Rust panic (out-of-bounds `Vec` indexing in `Vec::swap`) is modelled
  by an `Option` result, `none` meaning the panic.
* `Simulation<S, T>` is generic over the individual type; the types of
  the populations in the habitat and of the entries of the result's
  `fittest` vector are abstracted as type parameters `P` and `W` (their
  defining modules `population.rs` / `simulation.rs` are external to the
  embedded file, which only stores values of these types).
-/

/-- The exact rational value of Rust's `f64::MAX`, `(2 - 2 ^ (-52)) * 2 ^ 1023`. -/
def f64MAX : ℚ := 2 ^ 1024 - 2 ^ 971

/-- The `SimulationType` enum as used by `simulation_builder.rs`:
`EndIteration(u32)`, `EndFactor(f64)`, `EndFitness(f64)`. -/
inductive SimulationType where
  | EndIteration (iterations : Nat)
  | EndFactor (factor : ℚ)
  | EndFitness (fitness : ℚ)
deriving DecidableEq

/-- The `SimulationResult` struct with the fields initialised by
`SimulationBuilder::new` (`simulation_builder.rs`, lines 48-53):
`improvement_factor`, `original_fitness`, `fittest`, `iteration_counter`.
`W` is the type of the entries of the `fittest` vector. -/
structure SimulationResult (W : Type) where
  improvement_factor : ℚ
  original_fitness : ℚ
  fittest : List W
  iteration_counter : Nat
deriving DecidableEq

/-- The `Simulation` struct with the fields used by `simulation_builder.rs`:
`type_of_simulation`, `num_of_threads`, `habitat`, `total_time_in_ms`,
`simulation_result`. `P` is the type of the populations in the habitat. -/
structure Simulation (P W : Type) where
  type_of_simulation : SimulationType
  num_of_threads : Nat
  habitat : List P
  total_time_in_ms : ℚ
  simulation_result : SimulationResult W
deriving DecidableEq

/-- The builder struct `SimulationBuilder` wrapping the simulation being
configured (`simulation_builder.rs`, lines 22-25). -/
structure SimulationBuilder (P W : Type) where
  simulation : Simulation P W
deriving DecidableEq

/-- The builder's error enum (`simulation_builder.rs`, lines 27-33): the
single variant `EndIterationTooLow`. -/
inductive SimBuildError where
  | EndIterationTooLow
deriving DecidableEq

/-- `SimulationBuilder::new` (`simulation_builder.rs`, lines 41-56). -/
def SimulationBuilder.new (P W : Type) : SimulationBuilder P W where
  simulation :=
    { type_of_simulation := SimulationType.EndIteration 10
      num_of_threads := 2
      habitat := []
      total_time_in_ms := 0
      simulation_result :=
        { improvement_factor := f64MAX
          original_fitness := f64MAX
          fittest := []
          iteration_counter := 0 } }

/-- `SimulationBuilder::iterations` (`simulation_builder.rs`, lines 60-63). -/
def SimulationBuilder.iterations {P W : Type} (b : SimulationBuilder P W)
    (n : Nat) : SimulationBuilder P W :=
  { b with simulation :=
      { b.simulation with type_of_simulation := SimulationType.EndIteration n } }

/-- `SimulationBuilder::factor` (`simulation_builder.rs`, lines 67-70). -/
def SimulationBuilder.factor {P W : Type} (b : SimulationBuilder P W)
    (f : ℚ) : SimulationBuilder P W :=
  { b with simulation :=
      { b.simulation with type_of_simulation := SimulationType.EndFactor f } }

/-- `SimulationBuilder::fitness` (`simulation_builder.rs`, lines 74-77). -/
def SimulationBuilder.fitness {P W : Type} (b : SimulationBuilder P W)
    (f : ℚ) : SimulationBuilder P W :=
  { b with simulation :=
      { b.simulation with type_of_simulation := SimulationType.EndFitness f } }

/-- `SimulationBuilder::threads` (`simulation_builder.rs`, lines 80-83). -/
def SimulationBuilder.threads {P W : Type} (b : SimulationBuilder P W)
    (t : Nat) : SimulationBuilder P W :=
  { b with simulation := { b.simulation with num_of_threads := t } }

/-- `SimulationBuilder::add_population` (`simulation_builder.rs`, lines 86-89):
`self.simulation.habitat.push(population)`. -/
def SimulationBuilder.add_population {P W : Type} (b : SimulationBuilder P W)
    (population : P) : SimulationBuilder P W :=
  { b with simulation :=
      { b.simulation with habitat := b.simulation.habitat ++ [population] } }

/-- `SimulationBuilder::finalize` (`simulation_builder.rs`, lines 93-100):
match on the simulation, the pattern `EndIteration(0...9)` (an inclusive
Rust range pattern) yields `Err(EndIterationTooLow)`, everything else
yields `Ok(self.simulation)`. -/
def SimulationBuilder.finalize {P W : Type} (b : SimulationBuilder P W) :
    Except SimBuildError (Simulation P W) :=
  match b.simulation.type_of_simulation with
  | SimulationType.EndIteration n =>
      if n ≤ 9 then Except.error SimBuildError.EndIterationTooLow
      else Except.ok b.simulation
  | _ => Except.ok b.simulation

/-- One call to one of the three stopping-criterion setters of the builder:
`iterations(n)`, `factor(f)` or `fitness(f)`. -/
inductive CriterionCall where
  | iterationsCall (n : Nat)
  | factorCall (f : ℚ)
  | fitnessCall (f : ℚ)

/-- Apply one stopping-criterion setter call to a builder. -/
def applyCriterionCall {P W : Type} (b : SimulationBuilder P W) :
    CriterionCall → SimulationBuilder P W
  | CriterionCall.iterationsCall n => b.iterations n
  | CriterionCall.factorCall f => b.factor f
  | CriterionCall.fitnessCall f => b.fitness f

/-- Apply a sequence of stopping-criterion setter calls, left to right. -/
def applyCriterionCalls {P W : Type} (b : SimulationBuilder P W)
    (cs : List CriterionCall) : SimulationBuilder P W :=
  cs.foldl applyCriterionCall b

/-- The `SimulationType` variant a given setter call stores. -/
def criterionOfCall : CriterionCall → SimulationType
  | CriterionCall.iterationsCall n => SimulationType.EndIteration n
  | CriterionCall.factorCall f => SimulationType.EndFactor f
  | CriterionCall.fitnessCall f => SimulationType.EndFitness f

/-- The `CityItem` struct of the TSP example (`examples/tsp/src/main.rs`,
lines 31-35): the city coordinates and the tour as a list of indices into
them. -/
structure CityItem where
  city_positions : List (ℚ × ℚ)
  path : List Nat
deriving DecidableEq

/-- `city_distance` (`examples/tsp/src/main.rs`, lines 22-29): the
Euclidean distance `(x2 - x1).hypot(y2 - y1)` between the cities at the
two given indices. Out-of-range indexing (which panics in Rust) is
totalised with the junk coordinate `(0, 0)`; no claim depends on the
out-of-range value. -/
noncomputable def city_distance (city : List (ℚ × ℚ)) (index1 index2 : Nat) : ℝ :=
  let p1 := city.getD index1 (0, 0)
  let p2 := city.getD index2 (0, 0)
  Real.sqrt (((p2.1 - p1.1 : ℚ) : ℝ) ^ 2 + ((p2.2 - p1.2 : ℚ) : ℝ) ^ 2)

/-- `CityItem::new` (`examples/tsp/src/main.rs`, lines 39-68): the 20
fixed city coordinates, and the path `0, 1, ..., 19` with the start
position `0` appended at the end. -/
def CityItem.new : CityItem :=
  let city_positions : List (ℚ × ℚ) :=
    [(2.852197810188428, 90.31966506130796),
     (33.62874999956513, 44.9790462485413),
     (22.064901432163996, 83.9172876840628),
     (20.595912954825923, 12.798762916676043),
     (42.2234133639806, 88.41646877787616),
     (94.18533963242542, 21.151217108254627),
     (25.84671166792939, 63.707153428189514),
     (13.051898250315553, 89.61945656056766),
     (76.41370000896038, 97.20491253636689),
     (18.832993288649792, 6.006559110093601),
     (96.98045791932294, 72.23019966333018),
     (71.93203564171793, 93.03998204972012),
     (33.39161715459793, 5.13372283892819),
     (25.23072873231501, 67.1123015383591),
     (84.38812085016241, 90.80055533944926),
     (29.20345964254656, 21.17642854392676),
     (58.11390834674495, 66.93322778502613),
     (22.070195932187254, 59.73489434853766),
     (86.29060211377086, 83.14129496517567),
     (55.760857794890796, 26.95947234362994)]
  { city_positions := city_positions
    path := List.range city_positions.length ++ [0] }

/-- `CityItem::mutate` (`examples/tsp/src/main.rs`, lines 70-85). The two
random draws are passed as explicit arguments `index1`, `index2`: the
source draws each from `gen_range(1, city_positions.len())`, i.e. the
interval `[1, len)`, redrawing `index2` while it equals `index1`, then
performs `self.path.swap(index1, index2)`. `Vec::swap` panics when an
index is out of the path's bounds; the panic is modelled as `none`. -/
def CityItem.mutate (c : CityItem) (index1 index2 : Nat) : Option CityItem :=
  if index1 < c.path.length ∧ index2 < c.path.length then
    some { c with path := (c.path.set index1 (c.path.getD index2 0)).set index2
                            (c.path.getD index1 0) }
  else none

/-- `CityItem::calculate_fitness` (`examples/tsp/src/main.rs`, lines
88-102), in state-passing form for the `&self` receiver: starting from
`prev_index = city_positions.len() - 1` and `length = 0.0`, fold over the
path adding `city_distance(city_positions, prev_index, index)` and
setting `prev_index = index`; the borrowed receiver is returned
unchanged alongside the computed length. -/
noncomputable def CityItem.calculate_fitnessRun (c : CityItem) : ℝ × CityItem :=
  let start : Nat × ℝ := (c.city_positions.length - 1, 0)
  let r := c.path.foldl
    (fun acc index => (index, acc.2 + city_distance c.city_positions acc.1 index))
    start
  (r.2, c)

/-- The fitness value `CityItem::calculate_fitness` returns. -/
noncomputable def CityItem.calculate_fitness (c : CityItem) : ℝ :=
  (c.calculate_fitnessRun).1

/-- Total length of the route that starts at city index `prev` and then
visits the given indices in order (the closed form of the fitness loop's
accumulator). -/
noncomputable def routeLength (city : List (ℚ × ℚ)) : Nat → List Nat → ℝ
  | _, [] => 0
  | prev, i :: rest => city_distance city prev i + routeLength city i rest

/-- Sum of the distances between consecutive entries of a path: the term
written in claim C9 as the sum over `i` from `1` to `path.len() - 1` of
`city_distance(city_positions, path[i-1], path[i])`. -/
noncomputable def consecSum (city : List (ℚ × ℚ)) : List Nat → ℝ
  | [] => 0
  | [_] => 0
  | a :: b :: rest => city_distance city a b + consecSum city (b :: rest)

/-- Modelled from the spec: the repository file `population.rs` defining
`Population` is not among the embedded sources, so a Population is
modelled by its construction knobs, following the spec's list
"Per-population construction knobs: initial individual count, initial
mutation growth factor, reset_limit_start, reset_limit_increment,
reset_limit_end" together with the population id set by the builder. -/
structure Population where
  id : Nat
  num_individuals : Nat
  mutation_growth_factor : ℚ
  reset_limit_start : Nat
  reset_limit_increment : Nat
  reset_limit_end : Nat
deriving DecidableEq

/-- Modelled from the spec: the repository file `population_builder.rs`
defining `PopulationBuilder` is not among the embedded sources; it is
modelled as a record of the Population being configured. -/
structure PopulationBuilder where
  population : Population
deriving DecidableEq

/-- Modelled from the spec: a fresh population builder; the TSP example
sets every knob before finalising, so the initial values never reach a
finalised Population of the example. -/
def PopulationBuilder.new : PopulationBuilder where
  population :=
    { id := 0
      num_individuals := 0
      mutation_growth_factor := 0
      reset_limit_start := 0
      reset_limit_increment := 0
      reset_limit_end := 0 }

/-- Modelled from the spec: `set_id` stores the population id. -/
def PopulationBuilder.set_id (b : PopulationBuilder) (n : Nat) : PopulationBuilder :=
  { b with population := { b.population with id := n } }

/-- Modelled from the spec: `individuals` stores the initial individual
count. -/
def PopulationBuilder.individuals (b : PopulationBuilder) (n : Nat) : PopulationBuilder :=
  { b with population := { b.population with num_individuals := n } }

/-- Modelled from the spec: `increasing_exp_mutation_rate` stores the
initial mutation growth factor. -/
def PopulationBuilder.increasing_exp_mutation_rate (b : PopulationBuilder)
    (f : ℚ) : PopulationBuilder :=
  { b with population := { b.population with mutation_growth_factor := f } }

/-- Modelled from the spec: `reset_limit_start` stores the initial reset
limit. -/
def PopulationBuilder.reset_limit_start (b : PopulationBuilder) (n : Nat) :
    PopulationBuilder :=
  { b with population := { b.population with reset_limit_start := n } }

/-- Modelled from the spec: `reset_limit_increment` stores the reset limit
increment. -/
def PopulationBuilder.reset_limit_increment (b : PopulationBuilder) (n : Nat) :
    PopulationBuilder :=
  { b with population := { b.population with reset_limit_increment := n } }

/-- Modelled from the spec: `reset_limit_end` stores the final reset
limit. -/
def PopulationBuilder.reset_limit_end (b : PopulationBuilder) (n : Nat) :
    PopulationBuilder :=
  { b with population := { b.population with reset_limit_end := n } }

/-- Modelled from the spec: `finalize` produces the configured Population;
the spec states no rejection rule for the per-population knobs (an empty
Population is a precondition violation, "treated as programmer error"),
and the example unwraps the result, so the successful value is modelled
directly. -/
def PopulationBuilder.finalize (b : PopulationBuilder) : Population :=
  b.population

/-- The first population built by the TSP example's `main`
(`examples/tsp/src/main.rs`, lines 108-115). -/
def population1 : Population :=
  ((((((PopulationBuilder.new.set_id 1).individuals 100).increasing_exp_mutation_rate
      1.03).reset_limit_increment 100).reset_limit_start 100).reset_limit_end
    1000).finalize

/-- The second population built by the TSP example's `main`
(`examples/tsp/src/main.rs`, lines 117-124). -/
def population2 : Population :=
  ((((((PopulationBuilder.new.set_id 2).individuals 100).increasing_exp_mutation_rate
      1.04).reset_limit_increment 200).reset_limit_start 100).reset_limit_end
    2000).finalize

/-- The third population built by the TSP example's `main`
(`examples/tsp/src/main.rs`, lines 126-133). -/
def population3 : Population :=
  ((((((PopulationBuilder.new.set_id 3).individuals 100).increasing_exp_mutation_rate
      1.05).reset_limit_increment 300).reset_limit_start 100).reset_limit_end
    3000).finalize

/-- The fourth population built by the TSP example's `main`
(`examples/tsp/src/main.rs`, lines 135-142). -/
def population4 : Population :=
  ((((((PopulationBuilder.new.set_id 4).individuals 100).increasing_exp_mutation_rate
      1.06).reset_limit_increment 400).reset_limit_start 100).reset_limit_end
    4000).finalize

/-- The fifth population built by the TSP example's `main`
(`examples/tsp/src/main.rs`, lines 144-151). -/
def population5 : Population :=
  ((((((PopulationBuilder.new.set_id 5).individuals 100).increasing_exp_mutation_rate
      1.07).reset_limit_increment 500).reset_limit_start 100).reset_limit_end
    5000).finalize

/-- The simulation builder chain of the TSP example's `main`
(`examples/tsp/src/main.rs`, lines 153-162): `new`, `fitness(460.0)`,
`threads(4)`, then the five populations in order. `W` is the entry type
of the result's `fittest` vector, irrelevant to the configuration. -/
def tspBuilder (W : Type) : SimulationBuilder Population W :=
  (((((((SimulationBuilder.new Population W).fitness 460).threads
    4).add_population population1).add_population population2).add_population
    population3).add_population population4).add_population population5

/-- Claim C1: `finalize()` fails with `Error::EndIterationTooLow` if and
only if the configured stopping criterion is `EndIteration(n)` with
`n` in `[0, 9]`; in every other case (in particular `EndIteration(n)`
with `n ≥ 10`, `EndFactor`, `EndFitness`) it returns the configured
simulation successfully, and a failing result carries no simulation
value (the error variant has no payload). -/
theorem finalize_error_iff_iteration_too_low {P W : Type} (b : SimulationBuilder P W) :
    (b.finalize = Except.error SimBuildError.EndIterationTooLow ↔
      ∃ n, b.simulation.type_of_simulation = SimulationType.EndIteration n ∧ n < 10) ∧
    (b.finalize = Except.error SimBuildError.EndIterationTooLow ∨
      b.finalize = Except.ok b.simulation) := by
  constructor
  · constructor
    · intro h
      rcases hty : b.simulation.type_of_simulation with n | f | f
      · refine ⟨n, rfl, ?_⟩
        by_contra hn
        have hok : b.finalize = Except.ok b.simulation := by
          simp only [SimulationBuilder.finalize, hty]
          rw [if_neg (by omega)]
        rw [hok] at h
        exact Except.noConfusion h
      · have hok : b.finalize = Except.ok b.simulation := by
          simp only [SimulationBuilder.finalize, hty]
        rw [hok] at h
        exact Except.noConfusion h
      · have hok : b.finalize = Except.ok b.simulation := by
          simp only [SimulationBuilder.finalize, hty]
        rw [hok] at h
        exact Except.noConfusion h
    · rintro ⟨n, hty, hn⟩
      simp only [SimulationBuilder.finalize, hty]
      rw [if_pos (by omega)]
  · rcases hty : b.simulation.type_of_simulation with n | f | f
    · by_cases hn : n ≤ 9
      · left
        simp only [SimulationBuilder.finalize, hty]
        rw [if_pos hn]
      · right
        simp only [SimulationBuilder.finalize, hty]
        rw [if_neg hn]
    · right
      simp only [SimulationBuilder.finalize, hty]
    · right
      simp only [SimulationBuilder.finalize, hty]

/-- Claim C2: `finalize()` performs no validation other than the
iteration-count bound: every configuration whose stopping criterion is
not a too-low `EndIteration` — whatever its thread count (including 0)
and habitat (including the empty one) — is accepted. -/
theorem finalize_ok_of_criterion_not_too_low {P W : Type} (b : SimulationBuilder P W)
    (h : ∀ n, b.simulation.type_of_simulation = SimulationType.EndIteration n → 10 ≤ n) :
    b.finalize = Except.ok b.simulation := by
  rcases hty : b.simulation.type_of_simulation with n | f | f
  · have hn := h n hty
    simp only [SimulationBuilder.finalize, hty]
    rw [if_neg (by omega)]
  · simp only [SimulationBuilder.finalize, hty]
  · simp only [SimulationBuilder.finalize, hty]

/-- Witness for claim C2: the builder with `threads(0)` and an empty
habitat (no `add_population` call) is accepted by `finalize()`. -/
theorem finalize_ok_of_criterion_not_too_low_witness :
    ((SimulationBuilder.new Unit Unit).threads 0).simulation.num_of_threads = 0 ∧
    ((SimulationBuilder.new Unit Unit).threads 0).simulation.habitat = [] ∧
    ((SimulationBuilder.new Unit Unit).threads 0).finalize =
      Except.ok ((SimulationBuilder.new Unit Unit).threads 0).simulation :=
  ⟨rfl, rfl,
    finalize_ok_of_criterion_not_too_low ((SimulationBuilder.new Unit Unit).threads 0)
      (fun n hn => by
        simp only [SimulationBuilder.new, SimulationBuilder.threads,
          SimulationType.EndIteration.injEq] at hn
        omega)⟩

/-- Claim C3: the three stopping-criterion setters have last-call-wins
semantics: after any nonempty sequence of `iterations` / `factor` /
`fitness` calls on any builder state, the configuration holds exactly
the criterion variant stored by the last call. -/
theorem criterion_last_call_wins {P W : Type} (b : SimulationBuilder P W)
    (cs : List CriterionCall) (c : CriterionCall) :
    (applyCriterionCalls b (cs ++ [c])).simulation.type_of_simulation =
      criterionOfCall c := by
  unfold applyCriterionCalls
  rw [List.foldl_append]
  cases c <;> rfl

/-- Claim C4: `add_population(p)` appends `p` as the last element of the
habitat (the length grows by exactly one and every previously added
population keeps its position) and leaves the stopping criterion, the
thread count, the recorded time and the simulation result unchanged. -/
theorem add_population_appends {P W : Type} (b : SimulationBuilder P W) (p : P) :
    (b.add_population p).simulation.habitat = b.simulation.habitat ++ [p] ∧
    (b.add_population p).simulation.habitat.length =
      b.simulation.habitat.length + 1 ∧
    (∀ i, i < b.simulation.habitat.length →
      (b.add_population p).simulation.habitat.get? i = b.simulation.habitat.get? i) ∧
    (b.add_population p).simulation.type_of_simulation =
      b.simulation.type_of_simulation ∧
    (b.add_population p).simulation.num_of_threads = b.simulation.num_of_threads ∧
    (b.add_population p).simulation.total_time_in_ms =
      b.simulation.total_time_in_ms ∧
    (b.add_population p).simulation.simulation_result =
      b.simulation.simulation_result := by
  refine ⟨rfl, by simp [SimulationBuilder.add_population], fun i hi => ?_, rfl, rfl,
    rfl, rfl⟩
  exact List.get?_append hi

/-- Claim C5: `SimulationBuilder::new()` initialises the simulation
result empty, before any evolution work: no fittest entries, iteration
counter 0, and the sentinel `f64::MAX` for the improvement factor and
the original fitness. -/
theorem new_simulation_result_empty (P W : Type) :
    (SimulationBuilder.new P W).simulation.simulation_result.fittest = [] ∧
    (SimulationBuilder.new P W).simulation.simulation_result.iteration_counter = 0 ∧
    (SimulationBuilder.new P W).simulation.simulation_result.improvement_factor =
      f64MAX ∧
    (SimulationBuilder.new P W).simulation.simulation_result.original_fitness =
      f64MAX :=
  ⟨rfl, rfl, rfl, rfl⟩

/-- Claim C10: `SimulationBuilder::new()` defaults to the criterion
`EndIteration(10)`, 2 threads and an empty habitat, and this default
configuration is accepted by `finalize()` with the simulation as the
successful value. -/
theorem new_default_config_accepted (P W : Type) :
    (SimulationBuilder.new P W).simulation.type_of_simulation =
      SimulationType.EndIteration 10 ∧
    (SimulationBuilder.new P W).simulation.num_of_threads = 2 ∧
    (SimulationBuilder.new P W).simulation.habitat = [] ∧
    (SimulationBuilder.new P W).finalize =
      Except.ok (SimulationBuilder.new P W).simulation :=
  ⟨rfl, rfl, rfl, rfl⟩

/-- Claim C6: the TSP example's `main` builds exactly the scenario
configuration of spec §8 — five populations of 100 individuals each
with the pairwise distinct growth factors 1.03, 1.04, 1.05, 1.06, 1.07,
target fitness 460.0 and 4 worker threads — and `finalize()` accepts
it (it does not return `EndIterationTooLow`). -/
theorem tsp_main_configuration_accepted (W : Type) :
    (tspBuilder W).finalize = Except.ok (tspBuilder W).simulation ∧
    (tspBuilder W).simulation.type_of_simulation = SimulationType.EndFitness 460 ∧
    (tspBuilder W).simulation.num_of_threads = 4 ∧
    (tspBuilder W).simulation.habitat =
      [population1, population2, population3, population4, population5] ∧
    (∀ p ∈ (tspBuilder W).simulation.habitat, p.num_individuals = 100) ∧
    (tspBuilder W).simulation.habitat.map Population.mutation_growth_factor =
      [1.03, 1.04, 1.05, 1.06, 1.07] ∧
    ((tspBuilder W).simulation.habitat.map Population.mutation_growth_factor).Nodup := by
  have hh : (tspBuilder W).simulation.habitat =
      [population1, population2, population3, population4, population5] := rfl
  refine ⟨rfl, rfl, rfl, rfl, ?_, ?_, ?_⟩
  · intro p hp
    rw [hh] at hp
    simp only [List.mem_cons, List.not_mem_nil, or_false] at hp
    rcases hp with rfl | rfl | rfl | rfl | rfl
    · rfl
    · rfl
    · rfl
    · rfl
    · rfl
  · rw [hh]
    rfl
  · rw [hh]
    show ([(1.03 : ℚ), 1.04, 1.05, 1.06, 1.07]).Nodup
    simp only [List.nodup_cons, List.mem_cons, List.not_mem_nil, or_false, not_or,
      List.nodup_nil, and_true]
    norm_num

/-- A small concrete tour used to instantiate the fitness theorems. -/
def sampleCityItem : CityItem where
  city_positions := [(0, 0), (3, 4)]
  path := [0, 1, 0]

/-- Claim C7: `CityItem::calculate_fitness` is deterministic and
side-effect free: equal states give equal fitness values, and the
receiver's `city_positions` and `path` are unchanged by an
evaluation. -/
theorem calculate_fitness_deterministic (c1 c2 : CityItem) (h : c1 = c2) :
    c1.calculate_fitness = c2.calculate_fitness ∧
    c1.calculate_fitnessRun.2.city_positions = c1.city_positions ∧
    c1.calculate_fitnessRun.2.path = c1.path := by
  subst h
  exact ⟨rfl, rfl, rfl⟩

/-- Witness for claim C7 at a concrete tour. -/
theorem calculate_fitness_deterministic_witness :
    sampleCityItem.calculate_fitness = sampleCityItem.calculate_fitness ∧
    sampleCityItem.calculate_fitnessRun.2.city_positions =
      sampleCityItem.city_positions ∧
    sampleCityItem.calculate_fitnessRun.2.path = sampleCityItem.path :=
  calculate_fitness_deterministic sampleCityItem sampleCityItem rfl

/-- The fitness fold, starting from any previous index and any partial
length, adds exactly the route length of the remaining indices. -/
theorem foldl_city_distance (city : List (ℚ × ℚ)) (l : List Nat) :
    ∀ (prev : Nat) (acc : ℝ),
      (l.foldl (fun a i => (i, a.2 + city_distance city a.1 i)) (prev, acc)).2 =
        acc + routeLength city prev l := by
  induction l with
  | nil =>
      intro prev acc
      simp [routeLength]
  | cons i t ih =>
      intro prev acc
      simp only [List.foldl_cons, routeLength]
      rw [ih i (acc + city_distance city prev i)]
      ring

/-- The route length from a starting index equals the consecutive-pair
sum of the path headed by that index. -/
theorem routeLength_eq_consecSum (city : List (ℚ × ℚ)) :
    ∀ (p0 : Nat) (rest : List Nat),
      routeLength city p0 rest = consecSum city (p0 :: rest) := by
  intro p0 rest
  induction rest generalizing p0 with
  | nil => simp [routeLength, consecSum]
  | cons b t ih =>
      show city_distance city p0 b + routeLength city b t = _
      rw [ih b]
      rfl

/-- Claim C9: for every `CityItem` with a nonempty path,
`calculate_fitness` returns the edge from the last city-position index
to the path's first entry plus the sum of the distances between
consecutive path entries, the loop's previous index being initialised
to `city_positions.len() - 1`. -/
theorem calculate_fitness_closed_form (c : CityItem) (p0 : Nat) (rest : List Nat)
    (h : c.path = p0 :: rest) :
    c.calculate_fitness =
      city_distance c.city_positions (c.city_positions.length - 1) p0 +
        consecSum c.city_positions (p0 :: rest) := by
  have hfit : c.calculate_fitness =
      (c.path.foldl (fun a i => (i, a.2 + city_distance c.city_positions a.1 i))
        ((c.city_positions.length - 1 : Nat), (0 : ℝ))).2 := rfl
  rw [hfit, h, foldl_city_distance, zero_add]
  show city_distance c.city_positions (c.city_positions.length - 1) p0 +
      routeLength c.city_positions p0 rest = _
  rw [routeLength_eq_consecSum]

/-- Witness for claim C9 at a concrete tour. -/
theorem calculate_fitness_closed_form_witness :
    sampleCityItem.path = 0 :: [1, 0] ∧
    sampleCityItem.calculate_fitness =
      city_distance sampleCityItem.city_positions
        (sampleCityItem.city_positions.length - 1) 0 +
        consecSum sampleCityItem.city_positions (0 :: [1, 0]) :=
  ⟨rfl, calculate_fitness_closed_form sampleCityItem 0 [1, 0] rfl⟩

/-- Setting position `m` of a list to `a` and consing the old entry at
`m` in front yields a permutation of consing `a` in front. -/
theorem getD_cons_set_perm :
    ∀ (t : List Nat) (m : Nat) (a : Nat), m < t.length →
      List.Perm (t.getD m 0 :: t.set m a) (a :: t) := by
  intro t
  induction t with
  | nil =>
      intro m a h
      simp at h
  | cons b t2 ih =>
      intro m a h
      cases m with
      | zero =>
          show List.Perm (b :: a :: t2) (a :: b :: t2)
          exact List.Perm.swap a b t2
      | succ k =>
          have hk : k < t2.length := by simpa using h
          show List.Perm (t2.getD k 0 :: b :: t2.set k a) (a :: b :: t2)
          exact ((List.Perm.swap b (t2.getD k 0) (t2.set k a)).trans
            (List.Perm.cons b (ih k a hk))).trans (List.Perm.swap a b t2)

/-- Swapping two in-bounds positions of a list (as two `set` operations
on the old entries, the way `Vec::swap` behaves) permutes the list. -/
theorem set_set_swap_perm :
    ∀ (l : List Nat) (i j : Nat), i < l.length → j < l.length →
      List.Perm ((l.set i (l.getD j 0)).set j (l.getD i 0)) l := by
  intro l
  induction l with
  | nil =>
      intro i j hi hj
      simp at hi
  | cons a t ih =>
      intro i j hi hj
      cases i with
      | zero =>
          cases j with
          | zero =>
              show List.Perm (a :: t) (a :: t)
              exact List.Perm.refl (a :: t)
          | succ k =>
              have hk : k < t.length := by simpa using hj
              show List.Perm (t.getD k 0 :: t.set k a) (a :: t)
              exact getD_cons_set_perm t k a hk
      | succ m =>
          cases j with
          | zero =>
              have hm : m < t.length := by simpa using hi
              show List.Perm (t.getD m 0 :: t.set m a) (a :: t)
              exact getD_cons_set_perm t m a hm
          | succ k =>
              have hm : m < t.length := by simpa using hi
              have hk : k < t.length := by simpa using hj
              show List.Perm (a :: (t.set m (t.getD k 0)).set k (t.getD m 0)) (a :: t)
              exact List.Perm.cons a (ih m k hm hk)

/-- A concrete tour with the shape `CityItem::new` establishes (path one
longer than the list of cities), used to instantiate the mutation
theorem. -/
def sampleTour : CityItem where
  city_positions := [(0, 0), (1, 0), (0, 1)]
  path := [0, 1, 2, 0]

/-- A pathological `CityItem` whose path is shorter than its city list:
`Vec::swap` panics on it, refuting claim C8 as stated. -/
def shortTour : CityItem where
  city_positions := [(0, 0), (1, 0), (0, 1)]
  path := [9, 8]

/-- Claim C8 (amended with the bound `city_positions.len() ≤ path.len()`,
which holds for every `CityItem` produced by `new()`): for drawn indices
`index1 ≠ index2` in `[1, city_positions.len())`, `mutate` completes and
swaps exactly the two path entries at those indices: the first path
entry, every entry at an index at or beyond `city_positions.len()`
(in particular the duplicated start city at the end) and every entry at
any other index are unchanged, and the multiset of path entries is
preserved. -/
theorem mutate_swaps (c : CityItem) (index1 index2 : Nat)
    (hcity : 2 ≤ c.city_positions.length)
    (hpath : c.city_positions.length ≤ c.path.length)
    (h1l : 1 ≤ index1) (h1u : index1 < c.city_positions.length)
    (h2l : 1 ≤ index2) (h2u : index2 < c.city_positions.length)
    (hne : index1 ≠ index2) :
    ∃ c2, c.mutate index1 index2 = some c2 ∧
      c2.city_positions = c.city_positions ∧
      c2.path.length = c.path.length ∧
      c2.path.get? 0 = c.path.get? 0 ∧
      c2.path.get? index1 = c.path.get? index2 ∧
      c2.path.get? index2 = c.path.get? index1 ∧
      (∀ k, k ≠ index1 → k ≠ index2 → c2.path.get? k = c.path.get? k) ∧
      (∀ k, c.city_positions.length ≤ k → c2.path.get? k = c.path.get? k) ∧
      (c2.path : Multiset Nat) = (c.path : Multiset Nat) := by
  have hi1 : index1 < c.path.length := lt_of_lt_of_le h1u hpath
  have hi2 : index2 < c.path.length := lt_of_lt_of_le h2u hpath
  have hguard : index1 < c.path.length ∧ index2 < c.path.length := ⟨hi1, hi2⟩
  refine ⟨{ c with
    path := ((c.path.set index1 (c.path.getD index2 0)).set index2
      (c.path.getD index1 0)) }, ?_, rfl, ?_, ?_, ?_, ?_, ?_, ?_, ?_⟩
  · simp only [CityItem.mutate, if_pos hguard]
  · simp [List.length_set]
  · rw [List.get?_set_ne _ _ (show index2 ≠ 0 by omega),
      List.get?_set_ne _ _ (show index1 ≠ 0 by omega)]
  · rw [List.get?_set_ne _ _ (Ne.symm hne), List.get?_set_eq_of_lt _ hi1,
      List.getD_eq_get?, List.get?_eq_get hi2]
    rfl
  · have h2len : index2 < (c.path.set index1 (c.path.getD index2 0)).length := by
      rw [List.length_set]
      exact hi2
    rw [List.get?_set_eq_of_lt _ h2len, List.getD_eq_get?, List.get?_eq_get hi1]
    rfl
  · intro k hk1 hk2
    rw [List.get?_set_ne _ _ (Ne.symm hk2), List.get?_set_ne _ _ (Ne.symm hk1)]
  · intro k hk
    rw [List.get?_set_ne _ _ (show index2 ≠ k by omega),
      List.get?_set_ne _ _ (show index1 ≠ k by omega)]
  · rw [Multiset.coe_eq_coe]
    exact set_set_swap_perm c.path index1 index2 hi1 hi2

/-- Witness for claim C8 at a concrete tour and concrete drawn
indices. -/
theorem mutate_swaps_witness :
    ∃ c2, sampleTour.mutate 1 2 = some c2 ∧
      c2.city_positions = sampleTour.city_positions ∧
      c2.path.length = sampleTour.path.length ∧
      c2.path.get? 0 = sampleTour.path.get? 0 ∧
      c2.path.get? 1 = sampleTour.path.get? 2 ∧
      c2.path.get? 2 = sampleTour.path.get? 1 ∧
      (∀ k, k ≠ 1 → k ≠ 2 → c2.path.get? k = sampleTour.path.get? k) ∧
      (∀ k, sampleTour.city_positions.length ≤ k →
        c2.path.get? k = sampleTour.path.get? k) ∧
      (c2.path : Multiset Nat) = (sampleTour.path : Multiset Nat) :=
  mutate_swaps sampleTour 1 2 (by decide) (by decide) (by decide) (by decide)
    (by decide) (by decide) (by decide)

/-- Counterexample to claim C8 as stated: `shortTour` has at least two
city positions and `1`, `2` is a possible outcome of the random draws
from `[1, city_positions.len())`, yet `mutate` completes no swap on it —
`Vec::swap` panics (modelled as `none`) because the path is shorter than
the city list. -/
theorem mutate_counterexample :
    2 ≤ shortTour.city_positions.length ∧
    1 ≤ 1 ∧ 1 < shortTour.city_positions.length ∧
    1 ≤ 2 ∧ 2 < shortTour.city_positions.length ∧
    (1 : Nat) ≠ 2 ∧
    shortTour.mutate 1 2 = none ∧
    ¬∃ c2, shortTour.mutate 1 2 = some c2 := by
  refine ⟨by decide, by decide, by decide, by decide, by decide, by decide, rfl, ?_⟩
  rintro ⟨c2, hc⟩
  rw [show shortTour.mutate 1 2 = none from rfl] at hc
  exact Option.noConfusion hc
